import Mathlib

/-!
Shallow embedding of the download-supervision core of MagniTunes
(src/MagniTunes.py, class DownloadWorker) and proofs about it.

Strings are modelled as lists of characters; Python's case-insensitive
substring tests are modelled with an ASCII lowering function (all keywords
involved are ASCII).
-/

namespace MagniTunes

/-- ASCII lowering of one character, modelling Python's str.lower() on the
ASCII range (every keyword the code compares against is ASCII). -/
def lowerChar (c : Char) : Char :=
  if c = 'A' then 'a' else if c = 'B' then 'b' else if c = 'C' then 'c'
  else if c = 'D' then 'd' else if c = 'E' then 'e' else if c = 'F' then 'f'
  else if c = 'G' then 'g' else if c = 'H' then 'h' else if c = 'I' then 'i'
  else if c = 'J' then 'j' else if c = 'K' then 'k' else if c = 'L' then 'l'
  else if c = 'M' then 'm' else if c = 'N' then 'n' else if c = 'O' then 'o'
  else if c = 'P' then 'p' else if c = 'Q' then 'q' else if c = 'R' then 'r'
  else if c = 'S' then 's' else if c = 'T' then 't' else if c = 'U' then 'u'
  else if c = 'V' then 'v' else if c = 'W' then 'w' else if c = 'X' then 'x'
  else if c = 'Y' then 'y' else if c = 'Z' then 'z' else c

/-- Lowering of a whole line. -/
def lowerL (s : List Char) : List Char := s.map lowerChar

/-- `isPrefixL p s` decides whether `p` is an initial segment of `s`. -/
def isPrefixL : List Char → List Char → Bool
  | [], _ => true
  | _ :: _, [] => false
  | p :: ps, c :: cs => p == c && isPrefixL ps cs

/-- `containsSub pat s` models Python's `pat in s` substring test. -/
def containsSub (pat : List Char) : List Char → Bool
  | [] => isPrefixL pat []
  | c :: rest => isPrefixL pat (c :: rest) || containsSub pat rest

/-- `endsWithL pat s` models Python's `s.endswith(pat)`. -/
def endsWithL (pat s : List Char) : Bool := isPrefixL pat.reverse s.reverse

/-- `containsAny line kws` holds when some keyword of `kws` occurs in `line`. -/
def containsAny (line : List Char) (kws : List (List Char)) : Bool :=
  kws.any (fun k => containsSub k line)

/-- Connection-indicator keywords (MagniTunes.py line 122), matched on the
lowered line. -/
def connKeywords : List (List Char) :=
  ["connecting".data, "connected".data, "peer".data, "seeder".data]

/-- Progress keywords (line 128), matched case-sensitively. -/
def progressKeywords : List (List Char) :=
  ["DL:".data, "download".data, "completed".data]

/-- Completion keywords (line 148), matched on the lowered line. -/
def completionKeywords : List (List Char) :=
  ["download complete".data, "finished".data, "completed successfully".data]

/-- Fatal-indicator keywords (line 154), matched on the lowered line. -/
def fatalKeywords : List (List Char) :=
  ["error".data, "failed".data, "cannot".data, "unable".data]

/-- The standalone connection-indicator test (line 122). -/
def connIndicator (line : List Char) : Bool := containsAny (lowerL line) connKeywords

/-- The percent-progress condition (line 128):
`"%" in line and any(keyword in line for keyword in ["DL:", "download", "completed"])`. -/
def percentCond (line : List Char) : Bool :=
  containsSub "%".data line && containsAny line progressKeywords

/-- The completion condition (line 148). -/
def completionCond (line : List Char) : Bool :=
  containsAny (lowerL line) completionKeywords

/-- The fatal-indicator condition (line 154). -/
def fatalCond (line : List Char) : Bool := containsAny (lowerL line) fatalKeywords

/-- The benign-noise filter of the error branch (line 156):
`"dht" not in line.lower() and "server error" not in line.lower()` negated. -/
def benignCond (line : List Char) : Bool :=
  containsSub "dht".data (lowerL line) || containsSub "server error".data (lowerL line)

/-- The metadata condition (line 161). -/
def metadataCond (line : List Char) : Bool :=
  containsSub "metadata".data (lowerL line) && containsSub "download".data (lowerL line)

/-- Outcome of the if/elif classification chain of the read loop
(MagniTunes.py lines 128-163). The chain is evaluated in source order:
percent-progress first, then completion, then fatal error (with the benign
filter), then metadata. The connection-indicator test of line 122 is a
separate `if` and is modelled separately by `connIndicator`. -/
inductive LineClass where
  | progressPercent
  | completed
  | fatalError
  | benignError
  | metadataDownload
  | noise
deriving DecidableEq, Repr

/-- The classification chain applied to one (stripped) output line,
translated from MagniTunes.py lines 128-163 in source order. -/
def classifyLine (line : List Char) : LineClass :=
  if percentCond line then .progressPercent
  else if completionCond line then .completed
  else if fatalCond line then
    if !benignCond line then .fatalError else .benignError
  else if metadataCond line then .metadataDownload
  else .noise

/-- The timeout decision at the top of the read loop (line 108):
`not connection_established and (time.time() - start_time) > connection_timeout`
with `connection_timeout = 60` (line 104). Elapsed time is modelled in whole
time units (seconds). -/
def timeoutFires (elapsed : Nat) (connectionEstablished : Bool) : Bool :=
  !connectionEstablished && decide (elapsed > 60)

/-- What one call to `self.process.stdout.readline()` returned: a text line,
or end of stream (with the process already exited, line 114). -/
inductive ReadEv where
  | line (s : List Char)
  | eof
deriving DecidableEq, Repr

/-- One iteration of the read loop as observed from outside: `t` is the
elapsed time at the top of the loop (when the timeout check of line 108
runs), `ev` is what the subsequent blocking `readline()` returned. -/
structure Obs where
  t : Nat
  ev : ReadEv
deriving DecidableEq, Repr

/-- The mutable loop state of DownloadWorker.run (lines 101-102). -/
structure LoopState where
  conn : Bool
  downloadStarted : Bool
deriving DecidableEq, Repr

/-- How the read loop (lines 106-163) ended.
`fatalAbort` is the error branch (lines 154-158): it emits the failure and
returns without touching the process. `blocked` models the case where the
observation list is exhausted with neither a line nor end-of-stream: the
loop is stuck inside the blocking `readline()` call, which has no timeout,
so control never returns to the loop head. -/
inductive LoopExit where
  | timeoutAbort
  | fatalAbort (line : List Char)
  | completionBreak (st : LoopState)
  | eofBreak (st : LoopState)
  | blocked (st : LoopState)
deriving DecidableEq, Repr

/-- The standalone connection-indicator update (lines 122-125), applied to
the state before the classification chain runs. -/
def stepConn (st : LoopState) (s : List Char) : LoopState :=
  if connIndicator s then { st with conn := true } else st

/-- The read loop of DownloadWorker.run (lines 106-163), driven by the list
of observed readline results. -/
def readLoop (st : LoopState) : List Obs → LoopExit
  | [] => .blocked st
  | o :: rest =>
    if timeoutFires o.t st.conn then .timeoutAbort
    else
      match o.ev with
      | .eof => .eofBreak st
      | .line s =>
        match classifyLine s with
        | .progressPercent => readLoop { stepConn st s with downloadStarted := true } rest
        | .completed => .completionBreak { stepConn st s with downloadStarted := true }
        | .fatalError => .fatalAbort s
        | .benignError => readLoop (stepConn st s) rest
        | .metadataDownload => readLoop { stepConn st s with conn := true } rest
        | .noise => readLoop (stepConn st s) rest

/-- Recognized music extensions (line 230). -/
def musicExtensions : List (List Char) :=
  [".flac".data, ".mp3".data, ".wav".data, ".ogg".data, ".m4a".data,
   ".aac".data, ".wma".data]

/-- Whether one file qualifies in scan_for_music_files (lines 236-240):
the lowered name ends with a recognized extension and the size strictly
exceeds 1024 bytes. -/
def qualifies (name : List Char) (size : Nat) : Bool :=
  musicExtensions.any (fun ext => endsWithL ext (lowerL name)) && decide (size > 1024)

/-- scan_for_music_files (lines 228-246) over the directory contents,
modelled as the walked list of (file name, size) pairs in traversal order. -/
def scanMusic (files : List (List Char × Nat)) : List (List Char) :=
  (files.filter (fun f => qualifies f.1 f.2)).map (fun f => f.1)

/-- The closed set of failure kinds of the terminal outcome, one per
`download_finished.emit(False, ...)` site of DownloadWorker reachable in the
modelled run. -/
inductive FailReason where
  | invalidRequest
  | toolUnavailable
  | connectionTimeout
  | externalError (line : List Char)
  | noQualifyingOutput
  | nothingProduced
  | noPeers
  | processFailed
deriving DecidableEq, Repr

/-- Terminal outcome of a run (the boolean+message of download_finished,
refined into the failure taxonomy; Success carries the scanned file list). -/
inductive Outcome where
  | success (files : List (List Char))
  | failure (r : FailReason)
deriving DecidableEq, Repr

/-- Externally observable behavior of one spawned aria2c process: the
readline observations, the exit code harvested by `communicate` after the
loop, and the files found under the download directory afterwards. -/
structure ProcBehavior where
  obs : List Obs
  exitCode : Int
  dirFiles : List (List Char × Nat)
deriving DecidableEq, Repr

/-- Result of one DownloadWorker.run invocation.
`outcome = none` means run never emitted a terminal outcome (the loop is
still blocked in `readline()`).
`procTerminated` records whether, by the time the outcome is emitted (or
the method returns), a termination/harvest action was performed on the
spawned process (terminate, kill, or communicate-wait); vacuously true when
no process was spawned.
`scanned` records whether scan_for_music_files was invoked (line 175). -/
structure RunResult where
  outcome : Option Outcome
  spawned : Bool
  procTerminated : Bool
  scanned : Bool
  loopExit : Option LoopExit
deriving DecidableEq, Repr

/-- The post-loop aggregation of DownloadWorker.run (lines 172-199). -/
def finishRun (pb : ProcBehavior) (st : LoopState) : Outcome :=
  if pb.exitCode == 0 || st.downloadStarted then
    if (scanMusic pb.dirFiles).isEmpty then
      if pb.dirFiles.isEmpty then .failure .nothingProduced
      else .failure .noQualifyingOutput
    else .success (scanMusic pb.dirFiles)
  else if !st.conn then .failure .noPeers
  else .failure .processFailed

/-- DownloadWorker.run (lines 43-199): magnet validation (line 46), aria2c
availability probe (line 54, abstracted to a boolean), the read loop, and
the post-loop aggregation. -/
def runWorker (magnet : List Char) (ariaOk : Bool) (pb : ProcBehavior) : RunResult :=
  if !isPrefixL "magnet:?".data magnet then
    { outcome := some (.failure .invalidRequest), spawned := false,
      procTerminated := true, scanned := false, loopExit := none }
  else if !ariaOk then
    { outcome := some (.failure .toolUnavailable), spawned := false,
      procTerminated := true, scanned := false, loopExit := none }
  else
    match readLoop { conn := false, downloadStarted := false } pb.obs with
    | .timeoutAbort =>
      { outcome := some (.failure .connectionTimeout), spawned := true,
        procTerminated := true, scanned := false, loopExit := some .timeoutAbort }
    | .fatalAbort s =>
      { outcome := some (.failure (.externalError s)), spawned := true,
        procTerminated := false, scanned := false, loopExit := some (.fatalAbort s) }
    | .completionBreak st =>
      { outcome := some (finishRun pb st), spawned := true,
        procTerminated := true, scanned := pb.exitCode == 0 || st.downloadStarted,
        loopExit := some (.completionBreak st) }
    | .eofBreak st =>
      { outcome := some (finishRun pb st), spawned := true,
        procTerminated := true, scanned := pb.exitCode == 0 || st.downloadStarted,
        loopExit := some (.eofBreak st) }
    | .blocked st =>
      { outcome := none, spawned := true, procTerminated := false,
        scanned := false, loopExit := some (.blocked st) }

/-- Whether the run saw a Completed classification (the loop can only end
through the completion branch when one was seen, since that branch breaks
immediately, line 151). -/
def completedSeen (r : RunResult) : Bool :=
  match r.loopExit with
  | some (.completionBreak _) => true
  | _ => false

theorem lowerChar_idem (c : Char) : lowerChar (lowerChar c) = lowerChar c := by
  by_cases h1 : c = 'A'
  · subst h1; decide
  by_cases h2 : c = 'B'
  · subst h2; decide
  by_cases h3 : c = 'C'
  · subst h3; decide
  by_cases h4 : c = 'D'
  · subst h4; decide
  by_cases h5 : c = 'E'
  · subst h5; decide
  by_cases h6 : c = 'F'
  · subst h6; decide
  by_cases h7 : c = 'G'
  · subst h7; decide
  by_cases h8 : c = 'H'
  · subst h8; decide
  by_cases h9 : c = 'I'
  · subst h9; decide
  by_cases h10 : c = 'J'
  · subst h10; decide
  by_cases h11 : c = 'K'
  · subst h11; decide
  by_cases h12 : c = 'L'
  · subst h12; decide
  by_cases h13 : c = 'M'
  · subst h13; decide
  by_cases h14 : c = 'N'
  · subst h14; decide
  by_cases h15 : c = 'O'
  · subst h15; decide
  by_cases h16 : c = 'P'
  · subst h16; decide
  by_cases h17 : c = 'Q'
  · subst h17; decide
  by_cases h18 : c = 'R'
  · subst h18; decide
  by_cases h19 : c = 'S'
  · subst h19; decide
  by_cases h20 : c = 'T'
  · subst h20; decide
  by_cases h21 : c = 'U'
  · subst h21; decide
  by_cases h22 : c = 'V'
  · subst h22; decide
  by_cases h23 : c = 'W'
  · subst h23; decide
  by_cases h24 : c = 'X'
  · subst h24; decide
  by_cases h25 : c = 'Y'
  · subst h25; decide
  by_cases h26 : c = 'Z'
  · subst h26; decide
  have hc : lowerChar c = c := by
    unfold lowerChar
    simp [h1, h2, h3, h4, h5, h6, h7, h8, h9, h10, h11, h12, h13, h14, h15,
      h16, h17, h18, h19, h20, h21, h22, h23, h24, h25, h26]
  rw [hc, hc]

theorem lowerL_idem (s : List Char) : lowerL (lowerL s) = lowerL s := by
  unfold lowerL
  rw [List.map_map]
  apply List.map_congr_left
  intro c _
  exact lowerChar_idem c

/-- A run-level helper: the read loop only exits through `fatalAbort s` when
the classification chain mapped `s` to `fatalError`. -/
theorem readLoop_fatalAbort_classified (obs : List Obs) (st : LoopState)
    (s : List Char) (h : readLoop st obs = .fatalAbort s) :
    classifyLine s = .fatalError := by
  induction obs generalizing st with
  | nil => simp [readLoop] at h
  | cons o rest ih =>
    unfold readLoop at h
    by_cases ht : timeoutFires o.t st.conn = true
    · simp [ht] at h
    · simp [ht] at h
      cases hev : o.ev with
      | eof => rw [hev] at h; simp at h
      | line s' =>
        rw [hev] at h
        dsimp only [] at h
        cases hcl : classifyLine s' with
        | progressPercent => rw [hcl] at h; exact ih _ h
        | completed => rw [hcl] at h; simp at h
        | fatalError =>
          rw [hcl] at h
          dsimp only [] at h
          rw [LoopExit.fatalAbort.injEq] at h
          rw [h] at hcl
          exact hcl
        | benignError => rw [hcl] at h; exact ih _ h
        | metadataDownload => rw [hcl] at h; exact ih _ h
        | noise => rw [hcl] at h; exact ih _ h

/-- The post-loop aggregation never reports an ExternalError failure. -/
theorem finishRun_ne_externalError (pb : ProcBehavior) (st : LoopState)
    (line : List Char) : finishRun pb st ≠ .failure (.externalError line) := by
  unfold finishRun
  split_ifs <;> simp

/-- C2, counterexample. The line "download error at 50%" contains the fatal
indicator "error" and neither benign substring, yet the chain classifies it
as percent-progress, because the progress branch (line 128) is tested before
the error branch (line 154). -/
theorem c2_counterexample :
    fatalCond "download error at 50%".data = true ∧
    benignCond "download error at 50%".data = false ∧
    classifyLine "download error at 50%".data ≠ LineClass.fatalError := by
  decide

/-- C2, amended. A line containing a fatal indicator and no benign substring
is classified FatalError provided it also fails the percent-progress
condition and contains no completion indicator; peer and metadata indicators
on the same line do not prevent the FatalError classification. -/
theorem c2_fatal_classification_amended (line : List Char)
    (hf : fatalCond line = true) (hb : benignCond line = false)
    (hp : percentCond line = false) (hc : completionCond line = false) :
    classifyLine line = LineClass.fatalError := by
  unfold classifyLine
  simp [hf, hb, hp, hc]

/-- C2, witness: the amended theorem applied to the concrete line
"peer sent error message", which carries a peer indicator as well. -/
theorem c2_witness :
    classifyLine "peer sent error message".data = LineClass.fatalError :=
  c2_fatal_classification_amended "peer sent error message".data
    (by decide) (by decide) (by decide) (by decide)

/-- C3, counterexample. At the boundary elapsed = 60 with no connection the
code does not abort (line 108 compares with strict `>`), while the claim
requires abort at elapsed = 60. -/
theorem c3_counterexample :
    ¬ (timeoutFires 60 false = true ↔ (60 ≥ 60 ∧ false = false)) := by
  decide

/-- C3, amended. The timeout decision signals abort exactly when elapsed
time is strictly greater than 60 and connectionEstablished is false; once
connectionEstablished is true it never signals for any elapsed value. -/
theorem c3_timeout_decision_amended (e : Nat) (c : Bool) :
    (timeoutFires e c = true ↔ (e > 60 ∧ c = false)) ∧
    timeoutFires e true = false := by
  constructor
  · cases c <;> simp [timeoutFires]
  · simp [timeoutFires]

/-- C7. A line containing "dht" (case-insensitively) is never classified
FatalError, and no run ever ends with Failure(ExternalError) carrying such
a line as its detail. -/
theorem c7_dht_suppression (line : List Char)
    (h : containsSub "dht".data (lowerL line) = true) :
    classifyLine line ≠ LineClass.fatalError ∧
    ∀ (magnet : List Char) (ariaOk : Bool) (pb : ProcBehavior),
      (runWorker magnet ariaOk pb).outcome ≠
        some (.failure (.externalError line)) := by
  have hb : benignCond line = true := by
    unfold benignCond
    simp [h]
  have hcl : classifyLine line ≠ LineClass.fatalError := by
    unfold classifyLine
    by_cases hp : percentCond line = true
    · simp [hp]
    · by_cases hc : completionCond line = true
      · simp [hp, hc]
      · by_cases hf : fatalCond line = true
        · simp [hp, hc, hf, hb]
        · by_cases hm : metadataCond line = true <;> simp [hp, hc, hf, hm]
  refine ⟨hcl, ?_⟩
  intro magnet ariaOk pb
  unfold runWorker
  by_cases hmg : isPrefixL "magnet:?".data magnet
  · by_cases ha : ariaOk
    · simp only [hmg, ha, Bool.not_true, Bool.false_eq_true, if_false]
      cases hl : readLoop { conn := false, downloadStarted := false } pb.obs with
      | timeoutAbort => simp
      | fatalAbort s =>
        intro heq
        simp only [Option.some.injEq, Outcome.failure.injEq,
          FailReason.externalError.injEq] at heq
        rw [heq] at hl
        exact hcl (readLoop_fatalAbort_classified _ _ _ hl)
      | completionBreak st =>
        simp only [ne_eq, Option.some.injEq]
        exact finishRun_ne_externalError pb st line
      | eofBreak st =>
        simp only [ne_eq, Option.some.injEq]
        exact finishRun_ne_externalError pb st line
      | blocked st => simp
    · simp [hmg, ha]
  · simp [hmg]

/-- C7, witness: the suppression theorem applied to the concrete line
"DHT error: connection refused". -/
theorem c7_witness :
    classifyLine "DHT error: connection refused".data ≠ LineClass.fatalError :=
  (c7_dht_suppression "DHT error: connection refused".data (by decide)).1

/-- C8, counterexample. The line "download finished 100%" contains the
completion indicator "finished" but is classified as percent-progress, not
Completed, because the progress branch (line 128) is tested first. -/
theorem c8_counterexample :
    completionCond "download finished 100%".data = true ∧
    classifyLine "download finished 100%".data ≠ LineClass.completed := by
  decide

/-- C8, amended. A line containing a completion indicator in any letter case
is classified Completed provided it does not satisfy the percent-progress
condition (a "%" together with a case-sensitive "DL:", "download" or
"completed" substring). -/
theorem c8_completion_amended (line : List Char)
    (hc : completionCond line = true) (hp : percentCond line = false) :
    classifyLine line = LineClass.completed := by
  unfold classifyLine
  simp [hc, hp]

/-- C8, witness: the amended theorem applied to the upper-case concrete line
"DOWNLOAD COMPLETE!". -/
theorem c8_witness :
    classifyLine "DOWNLOAD COMPLETE!".data = LineClass.completed :=
  c8_completion_amended "DOWNLOAD COMPLETE!".data (by decide) (by decide)

/-- C1. Evaluation at the failing input: a run whose process emits the
fatally classified line "error: disk full" ends with
Failure(ExternalError, line) while no termination action was performed on
the still-running process (the error branch, lines 154-158, emits and
returns without calling terminate). -/
theorem c1_fatal_path_leaves_process_running :
    runWorker "magnet:?xt=abc".data true
      { obs := [{ t := 5, ev := .line "error: disk full".data }],
        exitCode := 1, dirFiles := [] } =
    { outcome := some (.failure (.externalError "error: disk full".data)),
      spawned := true, procTerminated := false, scanned := false,
      loopExit := some (.fatalAbort "error: disk full".data) } := by
  decide

/-- C4. Evaluation at the failing input: a process that stays silent (its
blocking `readline()` never returns) never reaches the elapsed-time check
again, so the run emits no outcome at all and the process is neither
terminated nor harvested — contrary to the claimed terminate +
Failure(ConnectionTimeout). -/
theorem c4_silent_process_never_times_out :
    runWorker "magnet:?xt=abc".data true
      { obs := [], exitCode := 0, dirFiles := [] } =
    { outcome := none, spawned := true, procTerminated := false,
      scanned := false,
      loopExit := some (.blocked { conn := false, downloadStarted := false }) } := by
  decide

/-- C9. A request whose target does not start with "magnet:?" fails
immediately with Failure(InvalidRequest) and no process is spawned. -/
theorem c9_invalid_magnet_no_spawn (magnet : List Char) (ariaOk : Bool)
    (pb : ProcBehavior) (h : isPrefixL "magnet:?".data magnet = false) :
    (runWorker magnet ariaOk pb).outcome =
      some (.failure .invalidRequest) ∧
    (runWorker magnet ariaOk pb).spawned = false := by
  unfold runWorker
  simp [h]

/-- C9, witness: the theorem applied to the concrete non-magnet target
"http://example.com/file". -/
theorem c9_witness :
    (runWorker "http://example.com/file".data true
      { obs := [], exitCode := 0, dirFiles := [] }).outcome =
      some (Outcome.failure FailReason.invalidRequest) ∧
    (runWorker "http://example.com/file".data true
      { obs := [], exitCode := 0, dirFiles := [] }).spawned = false :=
  c9_invalid_magnet_no_spawn "http://example.com/file".data true
    { obs := [], exitCode := 0, dirFiles := [] } (by decide)

/-- C6. A file qualifies iff its lowered name ends with a recognized
extension and its size strictly exceeds 1024 bytes; consequently a run
whose process exits 0 with the directory holding only a 10-byte "song.flac"
ends in Failure(NoQualifyingOutput), distinguished from the
nothing-was-produced failure of an empty directory. -/
theorem c6_qualifying_rule_and_small_file :
    (∀ (name : List Char) (size : Nat),
      qualifies name size = true ↔
        ((∃ ext ∈ musicExtensions, endsWithL ext (lowerL name) = true) ∧
          1024 < size)) ∧
    (runWorker "magnet:?xt=e".data true
      { obs := [{ t := 1, ev := .eof }], exitCode := 0,
        dirFiles := [("song.flac".data, 10)] }).outcome =
      some (.failure .noQualifyingOutput) ∧
    (runWorker "magnet:?xt=e".data true
      { obs := [{ t := 1, ev := .eof }], exitCode := 0,
        dirFiles := [] }).outcome = some (.failure .nothingProduced) := by
  refine ⟨?_, by decide, by decide⟩
  intro name size
  unfold qualifies
  simp [List.any_eq_true]

/-- C10. The aggregator lowers the file name before the extension test, so
any name qualifies exactly as its lowercased counterpart does; in
particular "track.FLAC" at 2000 bytes qualifies, exactly as "track.flac". -/
theorem c10_extension_case_insensitive :
    (∀ (name : List Char) (size : Nat),
      qualifies name size = qualifies (lowerL name) size) ∧
    qualifies "track.FLAC".data 2000 = true ∧
    qualifies "track.FLAC".data 2000 = qualifies "track.flac".data 2000 := by
  refine ⟨?_, by decide, by decide⟩
  intro name size
  unfold qualifies
  rw [lowerL_idem]

/-- When the post-loop condition of line 172 holds and the scan found
qualifying files, Success with exactly the scanned list is emitted. -/
theorem finishRun_success_of_music (pb : ProcBehavior) (st : LoopState)
    (hs : (pb.exitCode == 0 || st.downloadStarted) = true)
    (hne : (scanMusic pb.dirFiles).isEmpty = false) :
    finishRun pb st = .success (scanMusic pb.dirFiles) := by
  unfold finishRun
  simp [hs, hne]

/-- C5, counterexample. A run that sees only the percent-progress line
"download at 50%" and whose process then exits with code 1 invokes the
scan (download_started was set by the progress branch, line 131) even
though the process did not exit normally and no Completed event was seen —
refuting the claimed "exactly when". -/
theorem c5_counterexample :
    ¬ ((runWorker "magnet:?xt=c".data true
        { obs := [{ t := 1, ev := .line "download at 50%".data },
                  { t := 2, ev := .eof }],
          exitCode := 1, dirFiles := [] }).scanned = true ↔
      ((1 : Int) = 0 ∨
        completedSeen (runWorker "magnet:?xt=c".data true
          { obs := [{ t := 1, ev := .line "download at 50%".data },
                    { t := 2, ev := .eof }],
            exitCode := 1, dirFiles := [] }) = true)) := by
  decide

/-- C5, amended. The scan is invoked exactly when the read loop ended by
stream-end or a completion line and the exit code is 0 or the
download-started flag was set (by a percent-progress or completion line,
not only by a Completed event); when the loop is instead aborted by the
connection timeout the run ends, without scanning, in
Failure(ConnectionTimeout), and when it is aborted by a fatal
classification the run ends, without scanning, in Failure(ExternalError)
carrying the offending line; and when the scan yields at least one
qualifying file, Success with that file list is emitted. -/
theorem c5_scan_condition_amended (magnet : List Char) (pb : ProcBehavior)
    (hm : isPrefixL "magnet:?".data magnet = true) :
    ((runWorker magnet true pb).scanned = true ↔
      (∃ st : LoopState,
        ((runWorker magnet true pb).loopExit = some (.eofBreak st) ∨
         (runWorker magnet true pb).loopExit = some (.completionBreak st)) ∧
        (pb.exitCode = 0 ∨ st.downloadStarted = true))) ∧
    ((runWorker magnet true pb).loopExit = some .timeoutAbort →
      (runWorker magnet true pb).scanned = false ∧
      (runWorker magnet true pb).outcome =
        some (.failure .connectionTimeout)) ∧
    (∀ s : List Char,
      (runWorker magnet true pb).loopExit = some (.fatalAbort s) →
      (runWorker magnet true pb).scanned = false ∧
      (runWorker magnet true pb).outcome =
        some (.failure (.externalError s))) ∧
    ((runWorker magnet true pb).scanned = true →
      (scanMusic pb.dirFiles).isEmpty = false →
      (runWorker magnet true pb).outcome =
        some (.success (scanMusic pb.dirFiles))) := by
  unfold runWorker
  simp only [hm, Bool.not_true, Bool.false_eq_true, if_false]
  cases hl : readLoop { conn := false, downloadStarted := false } pb.obs
  all_goals dsimp only []
  case timeoutAbort =>
    refine ⟨by simp, fun _ => ⟨rfl, rfl⟩, ?_, by simp⟩
    intro s h
    simp at h
  case fatalAbort s =>
    refine ⟨by simp, ?_, ?_, by simp⟩
    · intro h
      simp at h
    · intro s' h
      simp only [Option.some.injEq, LoopExit.fatalAbort.injEq] at h
      subst h
      exact ⟨rfl, rfl⟩
  case blocked st =>
    refine ⟨by simp, ?_, ?_, by simp⟩
    · intro h
      simp at h
    · intro s h
      simp at h
  case eofBreak st =>
    refine ⟨?_, ?_, ?_, ?_⟩
    · constructor
      · intro hs
        refine ⟨st, Or.inl rfl, ?_⟩
        simpa using hs
      · rintro ⟨st', h1 | h1, hds⟩
        · simp only [Option.some.injEq, LoopExit.eofBreak.injEq] at h1
          subst h1
          simpa using hds
        · simp at h1
    · intro h
      simp at h
    · intro s h
      simp at h
    · intro hs hne
      rw [finishRun_success_of_music pb st hs hne]
  case completionBreak st =>
    refine ⟨?_, ?_, ?_, ?_⟩
    · constructor
      · intro hs
        refine ⟨st, Or.inr rfl, ?_⟩
        simpa using hs
      · rintro ⟨st', h1 | h1, hds⟩
        · simp at h1
        · simp only [Option.some.injEq, LoopExit.completionBreak.injEq] at h1
          subst h1
          simpa using hds
    · intro h
      simp at h
    · intro s h
      simp at h
    · intro hs hne
      rw [finishRun_success_of_music pb st hs hne]

/-- C5, witness: the amended theorem applied to a run that exits 0 with one
2000-byte flac file in the directory, yielding Success with that file. -/
theorem c5_witness :
    (runWorker "magnet:?xt=w".data true
      { obs := [{ t := 1, ev := .eof }], exitCode := 0,
        dirFiles := [("a.flac".data, 2000)] }).outcome =
      some (Outcome.success (scanMusic [("a.flac".data, 2000)])) :=
  (c5_scan_condition_amended "magnet:?xt=w".data
    { obs := [{ t := 1, ev := .eof }], exitCode := 0,
      dirFiles := [("a.flac".data, 2000)] } (by decide)).2.2.2
    (by decide) (by decide)

end MagniTunes
